import Mathlib

/-!
Verification of the annoku annotation server (src/annotationServer.ts, bundled
inside src/mcp.ts) against its natural-language specification.

The TypeScript is shallowly embedded: the in-memory Map of annotations becomes
an insertion-ordered association list, the HTTP handler becomes a pure function
from (context, store, request) to (status, body, new store, persist-signal),
JS dynamic values are modelled by the observations the handler makes of them
(String(v ?? ""), typeof v, truthiness, Number(v)), and fallible effects
(JSON.parse, readFileSync, the screenshot callback) are modelled by their
outcome (Except / Option).
-/

namespace Annoku

/-- A JS value in a string-ish body field, carrying exactly the observations
the handler makes: undefined, null, a string, or any other value together with
its String(-) image and its truthiness. -/
inductive JsVal where
  | undef
  | null
  | str (s : String)
  | other (asString : String) (truthyFlag : Bool)
deriving DecidableEq, Repr

/-- String(v ?? ""): undefined and null both fall back to the empty string. -/
def jsStringOrEmpty : JsVal → String
  | .undef => ""
  | .null => ""
  | .str s => s
  | .other r _ => r

/-- String(v) with no default. -/
def jsToString : JsVal → String
  | .undef => "undefined"
  | .null => "null"
  | .str s => s
  | .other r _ => r

/-- typeof v === "string". -/
def JsVal.isString : JsVal → Bool
  | .str _ => true
  | _ => false

/-- typeof v === "undefined". -/
def JsVal.isUndefined : JsVal → Bool
  | .undef => true
  | _ => false

/-- JS truthiness of the value. -/
def JsVal.isTruthy : JsVal → Bool
  | .undef => false
  | .null => false
  | .str s => s != ""
  | .other _ t => t

/-- A JS number: NaN or a finite value (modelled integral). -/
inductive JsNum where
  | nan
  | fin (i : Int)
deriving DecidableEq, Repr

/-- A JS value in a numeric position, before coercion: undefined, null, or a
value whose Number(-) coercion is the given number. -/
inductive JsNumVal where
  | undef
  | null
  | val (n : JsNum)
deriving DecidableEq, Repr

/-- Number(v ?? 0): undefined and null both fall back to 0, since ?? fires on
both and Number(null) is 0 anyway. -/
def coordOf : JsNumVal → JsNum
  | .undef => JsNum.fin 0
  | .null => JsNum.fin 0
  | .val n => n

/-- v != null (loose): false exactly for undefined and null. -/
def JsNumVal.notNullish : JsNumVal → Bool
  | .val _ => true
  | _ => false

/-- Number(v) with no default: Number(undefined) is NaN, Number(null) is 0. -/
def numberOf : JsNumVal → JsNum
  | .undef => JsNum.nan
  | .null => JsNum.fin 0
  | .val n => n

/-- n > 0 in JS: false for NaN. -/
def JsNum.gtZero : JsNum → Bool
  | .nan => false
  | .fin i => decide (0 < i)

-- --- Port file ---

/-- The record written to the port discovery file. -/
structure PortFileData where
  port : Nat
  pid : Nat
  startedAt : String
deriving DecidableEq, Repr

/-- Observable state of the port file: missing, present but failing to read or
parse, or present and parsing to the recorded data. readFileSync and JSON.parse
are modelled by their outcome. -/
inductive PortFileState where
  | absent
  | corrupt (raw : String)
  | valid (d : PortFileData)
deriving DecidableEq, Repr

/-- readPortFile: returns the parsed record, or null when the file is missing
or unparseable; the try/catch makes it total (it never throws). -/
def readPortFile : PortFileState → Option PortFileData
  | .valid d => some d
  | _ => none

/-- writePortFile: records {port, pid, startedAt} in the port file. -/
def writePortFile (port pid : Nat) (startedAt : String) : PortFileState :=
  PortFileState.valid ⟨port, pid, startedAt⟩

-- --- Annotation records ---

/-- selectorConfidence: "stable" | "fragile". -/
inductive Confidence where
  | stable
  | fragile
deriving DecidableEq, Repr

/-- status: "open" | "resolved" (opened stands for the "open" status, a Lean
keyword). -/
inductive AnnStatus where
  | opened
  | resolved
deriving DecidableEq, Repr

/-- reactSource: {component, source?}. -/
structure ReactSource where
  component : String
  source : Option String
deriving DecidableEq, Repr

/-- A sub-element descriptor of a multi-element annotation. -/
structure AnnotationElement where
  selector : String
  selectorConfidence : Confidence
  reactSource : Option ReactSource
  elementRect : JsNum × JsNum × JsNum × JsNum
deriving DecidableEq, Repr

/-- The stored annotation record. -/
structure Annotation where
  id : String
  url : String
  selector : String
  selectorConfidence : Confidence
  text : String
  status : AnnStatus
  viewport : JsNum × JsNum
  reactSource : Option ReactSource
  screenshot : Option String
  elements : Option (List AnnotationElement)
  anchorPoint : Option (JsNum × JsNum)
  createdAt : String
  updatedAt : String
deriving DecidableEq, Repr

-- --- The store: a JS Map as an insertion-ordered association list ---

abbrev Store := List (String × Annotation)

/-- Map.get. -/
def storeGet : Store → String → Option Annotation
  | [], _ => none
  | (k, v) :: rest, id => if k = id then some v else storeGet rest id

/-- Map.set: replaces in place when the key is present, appends otherwise. -/
def storeSet : Store → String → Annotation → Store
  | [], id, a => [(id, a)]
  | (k, v) :: rest, id, a =>
      if k = id then (k, a) :: rest else (k, v) :: storeSet rest id a

/-- Map.delete (removal part). -/
def storeErase : Store → String → Store
  | [], _ => []
  | (k, v) :: rest, id => if k = id then rest else (k, v) :: storeErase rest id

/-- Map.has. -/
def storeHas (s : Store) (id : String) : Bool :=
  (storeGet s id).isSome

/-- Map.values, in insertion order. -/
def storeValues (s : Store) : List Annotation :=
  s.map Prod.snd

-- --- Limits and error messages (source constants) ---

def maxAnnotations : Nat := 50
def maxTextLength : Nat := 10 * 1024
def maxSelectorLength : Nat := 2048
def maxViewportDim : Int := 100000
def maxScreenshotBytes : Nat := 20 * 1024 * 1024

def capacityErrorMsg : String :=
  "Maximum of 50 annotations reached. Resolve or delete existing annotations first."
def textErrorMsg : String := "Text exceeds maximum length of 10240 characters"
def selectorErrorMsg : String := "Selector exceeds maximum length of 2048 characters"
def elementSelectorErrorMsg : String :=
  "Element selector exceeds maximum length of 2048 characters"

-- --- Store methods of AnnotationServer ---

/-- resolveAnnotation(id): sets status to resolved, refreshes updatedAt,
schedules a persist, and returns the record; undefined when the id is unknown.
Result: (returned record, new store, whether schedulePersist was invoked). -/
def resolveAnnotation (s : Store) (id now : String) :
    Option Annotation × Store × Bool :=
  match storeGet s id with
  | none => (none, s, false)
  | some a =>
      let a2 := { a with status := AnnStatus.resolved, updatedAt := now }
      (some a2, storeSet s id a2, true)

/-- deleteAnnotation(id): (whether a record was deleted, new store, whether
schedulePersist was invoked). -/
def deleteAnnotation (s : Store) (id : String) : Bool × Store × Bool :=
  if storeHas s id then (true, storeErase s id, true) else (false, s, false)

/-- clearAnnotations(): returns (count removed, new store, whether
schedulePersist was invoked); the source only schedules when count > 0. -/
def clearAnnotations (s : Store) : Nat × Store × Bool :=
  (s.length, [], decide (0 < s.length))

/-- loadPersistedAnnotations: inserts every record of the snapshot file into
the store; a read/parse failure is swallowed and the store is left as-is. The
file content is modelled by its parse outcome. -/
def loadPersistedAnnotations (s : Store) (file : Except Unit (List Annotation)) :
    Store :=
  match file with
  | .error _ => s
  | .ok arr => arr.foldl (fun acc a => storeSet acc a.id a) s

-- --- Request bodies as the handler observes them ---

/-- body.reactSource (or el.reactSource) as an object: its component and
source properties. A missing / null / non-object reactSource, whose optional
chaining yields undefined, is modelled as none at the use site. -/
structure ReactVal where
  component : JsVal
  source : JsVal
deriving DecidableEq, Repr

/-- One entry of body.elements. -/
structure ElemVal where
  selector : JsVal
  selectorConfidence : JsVal
  reactSource : Option ReactVal
  elementRect : Option (JsNumVal × JsNumVal × JsNumVal × JsNumVal)
deriving DecidableEq, Repr

/-- The JSON-parsed request body, per field at the granularity the handler
reads it. elements is none when Array.isArray fails; viewport, elementRect and
anchorPoint are none when absent or when optional access yields undefined. -/
structure ReqBody where
  text : JsVal := JsVal.undef
  url : JsVal := JsVal.undef
  selector : JsVal := JsVal.undef
  selectorConfidence : JsVal := JsVal.undef
  elements : Option (List ElemVal) := none
  viewport : Option (JsNumVal × JsNumVal) := none
  reactSource : Option ReactVal := none
  elementRect : Option (JsNumVal × JsNumVal × JsNumVal × JsNumVal) := none
  anchorPoint : Option (JsNumVal × JsNumVal) := none
deriving DecidableEq, Repr

inductive Method where
  | GET
  | POST
  | PATCH
  | DELETE
  | OPTIONS
  | other (s : String)
deriving DecidableEq, Repr

/-- An HTTP request: method, pathname, and the result of readBody + JSON.parse
when the handler gets that far (.error = the body was oversized or was not
parseable JSON, which throws inside the handler). -/
structure Request where
  method : Method
  path : String
  body : Except Unit ReqBody

/-- The JSON response bodies the handler can produce. -/
inductive RespBody where
  | empty
  | ack
  | health (count : Nat) (port : Option Nat)
  | err (msg : String)
  | created (id : String)
  | record (a : Annotation)
  | records (l : List Annotation)
  | cleared (deleted : Nat)
  | deletedOne
  | script (s : String)
deriving DecidableEq, Repr

/-- Outcome of one request: HTTP status, response body, the store afterwards,
and whether schedulePersist was invoked during the request. -/
structure HandlerResult where
  status : Nat
  body : RespBody
  store : Store
  persistScheduled : Bool
deriving DecidableEq, Repr

/-- The screenshot callback, applied to the coerced rect; it may reject
(.error) or resolve to a string or null. -/
abbrev ScreenshotCallback := JsNum → JsNum → JsNum → JsNum → Except Unit (Option String)

/-- Server configuration visible to the request handler. -/
structure Ctx where
  port : Option Nat
  overlayScriptBuilder : Option (Nat → String)
  screenshotCallback : Option ScreenshotCallback

-- --- Pieces of the create handler ---

/-- The element-selector validation loop: some element selector exceeds the
ceiling (the source returns 400 on the first such element). -/
def anyElementSelectorTooLong : Option (List ElemVal) → Bool
  | none => false
  | some els =>
      els.any fun el => decide (maxSelectorLength < (jsStringOrEmpty el.selector).length)

/-- Number(viewport?.width ?? 0). -/
def viewportWidth (b : ReqBody) : JsNum :=
  match b.viewport with
  | none => JsNum.fin 0
  | some (w, _) => coordOf w

/-- Number(viewport?.height ?? 0). -/
def viewportHeight (b : ReqBody) : JsNum :=
  match b.viewport with
  | none => JsNum.fin 0
  | some (_, h) => coordOf h

/-- The viewport guard: both dimensions finite, non-negative and at most
100000. -/
def viewportOk : JsNum → JsNum → Bool
  | .fin w, .fin h =>
      decide (0 ≤ w) && decide (w ≤ maxViewportDim) &&
      decide (0 ≤ h) && decide (h ≤ maxViewportDim)
  | _, _ => false

/-- The screenshot capture block: runs only when an element rect with positive
width and height is supplied and a callback is registered; a rejected promise
or an oversized result degrades to no screenshot, a result within the ceiling
is kept verbatim. -/
def computeScreenshot (cb : Option ScreenshotCallback)
    (rect : Option (JsNumVal × JsNumVal × JsNumVal × JsNumVal)) : Option String :=
  match rect, cb with
  | some (x, y, w, h), some f =>
      if (coordOf w).gtZero && (coordOf h).gtZero then
        match f (coordOf x) (coordOf y) (coordOf w) (coordOf h) with
        | .error _ => none
        | .ok none => none
        | .ok (some s) =>
            if s != "" && decide (maxScreenshotBytes < s.length) then none
            else some s
      else none
  | _, _ => none

/-- reactSource?.component ? {component, source?} : null. -/
def mkReactSource : Option ReactVal → Option ReactSource
  | none => none
  | some rv =>
      if rv.component.isTruthy then
        some { component := jsToString rv.component,
               source := if rv.source.isTruthy then some (jsToString rv.source) else none }
      else none

/-- Coercion of a sub-element rect, 0 for missing coordinates. -/
def mkElementRect :
    Option (JsNumVal × JsNumVal × JsNumVal × JsNumVal) → JsNum × JsNum × JsNum × JsNum
  | none => (JsNum.fin 0, JsNum.fin 0, JsNum.fin 0, JsNum.fin 0)
  | some (x, y, w, h) => (coordOf x, coordOf y, coordOf w, coordOf h)

/-- selectorConfidence === "stable" ? "stable" : "fragile". -/
def mkConfidence (v : JsVal) : Confidence :=
  if v = JsVal.str "stable" then Confidence.stable else Confidence.fragile

/-- Construction of the elements array of a multi-element annotation. -/
def mkElements : Option (List ElemVal) → Option (List AnnotationElement)
  | none => none
  | some els =>
      some (els.map fun el =>
        { selector := jsStringOrEmpty el.selector,
          selectorConfidence := mkConfidence el.selectorConfidence,
          reactSource := mkReactSource el.reactSource,
          elementRect := mkElementRect el.elementRect })

/-- anchorPt && anchorPt.x != null && anchorPt.y != null. -/
def mkAnchorPoint : Option (JsNumVal × JsNumVal) → Option (JsNum × JsNum)
  | none => none
  | some (x, y) =>
      if x.notNullish && y.notNullish then some (numberOf x, numberOf y) else none

/-- The annotation record built by the create handler once validation has
passed. -/
def builtAnn (ctx : Ctx) (b : ReqBody) (freshId now : String) : Annotation :=
  { id := freshId,
    url := jsStringOrEmpty b.url,
    selector := jsStringOrEmpty b.selector,
    selectorConfidence := mkConfidence b.selectorConfidence,
    text := jsStringOrEmpty b.text,
    status := AnnStatus.opened,
    viewport := (viewportWidth b, viewportHeight b),
    reactSource := mkReactSource b.reactSource,
    screenshot := computeScreenshot ctx.screenshotCallback b.elementRect,
    elements := mkElements b.elements,
    anchorPoint := mkAnchorPoint b.anchorPoint,
    createdAt := now,
    updatedAt := now }

/-- POST /annotations: the capacity check precedes reading the body; then the
field validations in source order (text, url, selector, element selectors,
viewport); then the screenshot capture and the insertion. freshId is the
randomUUID() the handler draws, now the current timestamp. -/
def handleCreate (ctx : Ctx) (store : Store) (body : Except Unit ReqBody)
    (freshId now : String) : HandlerResult :=
  if maxAnnotations ≤ store.length then
    ⟨429, RespBody.err capacityErrorMsg, store, false⟩
  else
    match body with
    | .error _ => ⟨500, RespBody.err "Internal server error", store, false⟩
    | .ok b =>
        if maxTextLength < (jsStringOrEmpty b.text).length then
          ⟨400, RespBody.err textErrorMsg, store, false⟩
        else if !b.url.isUndefined && !b.url.isString then
          ⟨400, RespBody.err "url must be a string", store, false⟩
        else if maxSelectorLength < (jsStringOrEmpty b.selector).length then
          ⟨400, RespBody.err selectorErrorMsg, store, false⟩
        else if anyElementSelectorTooLong b.elements then
          ⟨400, RespBody.err elementSelectorErrorMsg, store, false⟩
        else if !viewportOk (viewportWidth b) (viewportHeight b) then
          ⟨400, RespBody.err "Invalid viewport dimensions", store, false⟩
        else
          ⟨201, RespBody.created freshId,
            storeSet store freshId (builtAnn ctx b freshId now), true⟩

/-- PATCH /annotations/:id: 404 on unknown id before the body is read; then a
string text field is length-checked and applied; updatedAt is refreshed and a
persist is scheduled even when no string text was supplied. -/
def handlePatch (store : Store) (id : String) (body : Except Unit ReqBody)
    (now : String) : HandlerResult :=
  match storeGet store id with
  | none => ⟨404, RespBody.err "Annotation not found", store, false⟩
  | some a =>
      match body with
      | .error _ => ⟨500, RespBody.err "Internal server error", store, false⟩
      | .ok b =>
          match b.text with
          | .str s =>
              if maxTextLength < s.length then
                ⟨400, RespBody.err textErrorMsg, store, false⟩
              else
                let a2 := { a with text := s, updatedAt := now }
                ⟨200, RespBody.record a2, storeSet store id a2, true⟩
          | _ =>
              let a2 := { a with updatedAt := now }
              ⟨200, RespBody.record a2, storeSet store id a2, true⟩

/-- POST /annotations/:id/resolve. -/
def handleResolve (store : Store) (id now : String) : HandlerResult :=
  match resolveAnnotation store id now with
  | (none, s, _) => ⟨404, RespBody.err "Annotation not found", s, false⟩
  | (some a2, s2, p) => ⟨200, RespBody.record a2, s2, p⟩

/-- DELETE /annotations/:id. -/
def handleDeleteOne (store : Store) (id : String) : HandlerResult :=
  if storeHas store id then
    ⟨200, RespBody.deletedOne, storeErase store id, true⟩
  else
    ⟨404, RespBody.err "Annotation not found", store, false⟩

/-- Splitting a character list on the slash character (the list-level core of
String.splitOn "/", re-stated structurally). -/
def splitOnSlash : List Char → List (List Char)
  | [] => [[]]
  | c :: rest =>
      if c = '/' then [] :: splitOnSlash rest
      else
        match splitOnSlash rest with
        | [] => [[c]]
        | g :: gs => (c :: g) :: gs

/-- The route regexp /^\/annotations\/([^/]+)(\/resolve)?$/: a non-empty id
segment without slashes, optionally followed by /resolve. -/
def pathIdMatch (path : String) : Option (String × Bool) :=
  match splitOnSlash path.data with
  | [pre, ann, id] =>
      if pre = [] ∧ ann = "annotations".data ∧ id ≠ [] then some (String.mk id, false)
      else none
  | [pre, ann, id, res] =>
      if pre = [] ∧ ann = "annotations".data ∧ id ≠ [] ∧ res = "resolve".data then
        some (String.mk id, true)
      else none
  | _ => none

/-- The HTTP request handler of AnnotationServer, dispatching in source order:
OPTIONS preflight, health check, overlay script, create, bulk delete, list,
then the :id routes, then 404. -/
def handleRequest (ctx : Ctx) (store : Store) (req : Request)
    (freshId now : String) : HandlerResult :=
  if req.method = Method.OPTIONS then
    ⟨204, RespBody.empty, store, false⟩
  else if req.method = Method.GET ∧ req.path = "/" then
    ⟨200, RespBody.health store.length ctx.port, store, false⟩
  else if req.method = Method.GET ∧ req.path = "/overlay.js" then
    match ctx.overlayScriptBuilder, ctx.port with
    | some builder, some p =>
        if p = 0 then ⟨503, RespBody.err "Overlay script not available", store, false⟩
        else ⟨200, RespBody.script (builder p), store, false⟩
    | _, _ => ⟨503, RespBody.err "Overlay script not available", store, false⟩
  else if req.method = Method.POST ∧ req.path = "/annotations" then
    handleCreate ctx store req.body freshId now
  else if req.method = Method.DELETE ∧ req.path = "/annotations" then
    ⟨200, RespBody.cleared (clearAnnotations store).1,
      (clearAnnotations store).2.1, (clearAnnotations store).2.2⟩
  else if req.method = Method.GET ∧ req.path = "/annotations" then
    ⟨200, RespBody.records (storeValues store), store, false⟩
  else
    match pathIdMatch req.path with
    | some (id, true) =>
        if req.method = Method.POST then handleResolve store id now
        else ⟨404, RespBody.err "Not found", store, false⟩
    | some (id, false) =>
        if req.method = Method.PATCH then handlePatch store id req.body now
        else if req.method = Method.DELETE then handleDeleteOne store id
        else ⟨404, RespBody.err "Not found", store, false⟩
    | none => ⟨404, RespBody.err "Not found", store, false⟩

-- --- Send-notification latch (not present in the src copy of the server) ---

/-- Modelled from the spec: AnnotationServer.consumeSentState, the poll mode of
the send-notification latch, is absent from the annotationServer copy under
src (only the tests and the MCP tool layer reference it). It returns whether a
send happened since the last consume and resets the latch to false. Input and
first output: the latch; second output: the latch afterwards. -/
def consumeSentState (latched : Bool) : Bool × Bool :=
  (latched, false)

/-- Modelled from the spec: triggering a send with no active waiter sets the
latch; the trigger itself is absent from the annotationServer copy under src. -/
def triggerSend (_latched : Bool) : Bool :=
  true

/-- The payload waitForSend resolves with. -/
structure WaitResult where
  triggered : Bool
deriving DecidableEq, Repr

/-- Modelled from the spec: AnnotationServer.waitForSend(timeoutMs) is absent
from the annotationServer copy under src. If a send is already latched it
resolves immediately with triggered = true and clears the latch; otherwise it
resolves triggered = true when a send occurs during the wait (modelled by
sendDuringWait = true) and triggered = false when the timeout elapses first
(sendDuringWait = false). Output: the result and the latch afterwards. -/
def waitForSend (latched : Bool) (sendDuringWait : Bool) : WaitResult × Bool :=
  if latched then (⟨true⟩, false)
  else if sendDuringWait then (⟨true⟩, false)
  else (⟨false⟩, false)

/-- Modelled from the spec: the POST /annotations/send route (trigger the send
latch, answer 200 as an acknowledgement) is absent from the handleRequest copy
under src, though the repository's tests exercise it over HTTP; every other
route is delegated to the handler embedded from src. -/
def handleRequestWithSend (ctx : Ctx) (store : Store) (latched : Bool)
    (req : Request) (freshId now : String) : HandlerResult × Bool :=
  if req.method = Method.POST ∧ req.path = "/annotations/send" then
    (⟨200, RespBody.ack, store, false⟩, triggerSend latched)
  else
    (handleRequest ctx store req freshId now, latched)

-- --- Concrete inputs used by witnesses and counterexamples ---

/-- A string of n copies of the character x. -/
def chars (n : Nat) : String :=
  String.mk (List.replicate n 'x')

/-- A minimal stored record with the given id. -/
def plainAnn (id : String) : Annotation :=
  { id := id, url := "", selector := "", selectorConfidence := Confidence.fragile,
    text := "", status := AnnStatus.opened, viewport := (JsNum.fin 0, JsNum.fin 0),
    reactSource := none, screenshot := none, elements := none, anchorPoint := none,
    createdAt := "", updatedAt := "" }

/-- A persisted snapshot holding 51 records with pairwise distinct ids. -/
def snapshot51 : List Annotation :=
  (List.range 51).map fun i => plainAnn (toString i)

/-- A store already holding 50 records. -/
def store50 : Store :=
  (List.range 50).map fun i => (toString i, plainAnn (toString i))

/-- A store holding one record under id "a1". -/
def store1 : Store :=
  [("a1", plainAnn "a1")]

/-- A context with no port, no overlay builder and no screenshot callback. -/
def ctx0 : Ctx :=
  ⟨none, none, none⟩

/-- A context with the given screenshot callback only. -/
def ctxShot (p : Option Nat) (ov : Option (Nat → String))
    (cb : ScreenshotCallback) : Ctx :=
  ⟨p, ov, some cb⟩

/-- A body carrying a 5x5 element rect at the origin and nothing else. -/
def rectBody : ReqBody :=
  { elementRect := some (JsNumVal.val (JsNum.fin 0), JsNumVal.val (JsNum.fin 0),
      JsNumVal.val (JsNum.fin 5), JsNumVal.val (JsNum.fin 5)) }

-- --- Store lemmas ---

theorem storeSet_length_le (s : Store) (id : String) (a : Annotation) :
    (storeSet s id a).length ≤ s.length + 1 := by
  induction s with
  | nil => simp [storeSet]
  | cons hd tl ih =>
      obtain ⟨k, v⟩ := hd
      by_cases h : k = id
      · simp [storeSet, h]
        try omega
      · simp [storeSet, h]
        try omega

theorem storeSet_length_of_get (s : Store) (id : String) (a b : Annotation)
    (h : storeGet s id = some a) : (storeSet s id b).length = s.length := by
  induction s with
  | nil => simp [storeGet] at h
  | cons hd tl ih =>
      obtain ⟨k, v⟩ := hd
      by_cases hk : k = id
      · simp [storeSet, hk]
      · simp [storeGet, hk] at h
        simp [storeSet, hk, ih h]

theorem storeErase_length_le (s : Store) (id : String) :
    (storeErase s id).length ≤ s.length := by
  induction s with
  | nil => simp [storeErase]
  | cons hd tl ih =>
      obtain ⟨k, v⟩ := hd
      by_cases h : k = id
      · simp [storeErase, h]
        try omega
      · simp [storeErase, h]
        try omega

theorem storeGet_storeSet (s : Store) (id : String) (a : Annotation) :
    storeGet (storeSet s id a) id = some a := by
  induction s with
  | nil => simp [storeSet, storeGet]
  | cons hd tl ih =>
      obtain ⟨k, v⟩ := hd
      by_cases h : k = id <;> simp [storeSet, storeGet, h, ih]

theorem chars_length (n : Nat) : (chars n).length = n := by
  simp [chars, String.length]

-- --- Handler lemmas ---

theorem handleCreate_at_capacity (ctx : Ctx) (store : Store)
    (body : Except Unit ReqBody) (freshId now : String)
    (h : maxAnnotations ≤ store.length) :
    handleCreate ctx store body freshId now =
      ⟨429, RespBody.err capacityErrorMsg, store, false⟩ := by
  unfold handleCreate
  rw [if_pos h]

theorem handleCreate_ok (ctx : Ctx) (store : Store) (b : ReqBody)
    (freshId now : String)
    (h50 : store.length < maxAnnotations)
    (ht : (jsStringOrEmpty b.text).length ≤ maxTextLength)
    (hu : (!b.url.isUndefined && !b.url.isString) = false)
    (hs : (jsStringOrEmpty b.selector).length ≤ maxSelectorLength)
    (he : anyElementSelectorTooLong b.elements = false)
    (hv : viewportOk (viewportWidth b) (viewportHeight b) = true) :
    handleCreate ctx store (.ok b) freshId now =
      ⟨201, RespBody.created freshId,
        storeSet store freshId (builtAnn ctx b freshId now), true⟩ := by
  unfold handleCreate
  rw [if_neg (by omega)]
  dsimp only
  rw [if_neg (by omega), if_neg (by simp [hu]), if_neg (by omega),
    if_neg (by simp [he]), if_neg (by simp [hv])]

theorem handleCreate_text_reject (ctx : Ctx) (store : Store) (b : ReqBody)
    (freshId now : String)
    (h50 : store.length < maxAnnotations)
    (ht : maxTextLength < (jsStringOrEmpty b.text).length) :
    handleCreate ctx store (.ok b) freshId now =
      ⟨400, RespBody.err textErrorMsg, store, false⟩ := by
  unfold handleCreate
  rw [if_neg (by omega)]
  dsimp only
  rw [if_pos ht]

theorem handleCreate_selector_reject (ctx : Ctx) (store : Store) (b : ReqBody)
    (freshId now : String)
    (h50 : store.length < maxAnnotations)
    (ht : (jsStringOrEmpty b.text).length ≤ maxTextLength)
    (hu : (!b.url.isUndefined && !b.url.isString) = false)
    (hs : maxSelectorLength < (jsStringOrEmpty b.selector).length) :
    handleCreate ctx store (.ok b) freshId now =
      ⟨400, RespBody.err selectorErrorMsg, store, false⟩ := by
  unfold handleCreate
  rw [if_neg (by omega)]
  dsimp only
  rw [if_neg (by omega), if_neg (by simp [hu]), if_pos hs]

theorem handleCreate_element_selector_reject (ctx : Ctx) (store : Store)
    (b : ReqBody) (freshId now : String)
    (h50 : store.length < maxAnnotations)
    (ht : (jsStringOrEmpty b.text).length ≤ maxTextLength)
    (hu : (!b.url.isUndefined && !b.url.isString) = false)
    (hs : (jsStringOrEmpty b.selector).length ≤ maxSelectorLength)
    (hel : anyElementSelectorTooLong b.elements = true) :
    handleCreate ctx store (.ok b) freshId now =
      ⟨400, RespBody.err elementSelectorErrorMsg, store, false⟩ := by
  unfold handleCreate
  rw [if_neg (by omega)]
  dsimp only
  rw [if_neg (by omega), if_neg (by simp [hu]), if_neg (by omega), if_pos hel]

theorem handleCreate_store_le (ctx : Ctx) (store : Store)
    (body : Except Unit ReqBody) (freshId now : String)
    (h : store.length ≤ maxAnnotations) :
    (handleCreate ctx store body freshId now).store.length ≤ maxAnnotations := by
  by_cases h50 : maxAnnotations ≤ store.length
  · rw [handleCreate_at_capacity ctx store body freshId now h50]
    exact h
  · unfold handleCreate
    rw [if_neg h50]
    match body with
    | .error _ => exact h
    | .ok b =>
        dsimp only
        split
        · exact h
        · split
          · exact h
          · split
            · exact h
            · split
              · exact h
              · split
                · exact h
                · have hle := storeSet_length_le store freshId (builtAnn ctx b freshId now)
                  dsimp only
                  omega

theorem handlePatch_store_le (store : Store) (id : String)
    (body : Except Unit ReqBody) (now : String)
    (h : store.length ≤ maxAnnotations) :
    (handlePatch store id body now).store.length ≤ maxAnnotations := by
  unfold handlePatch
  cases hg : storeGet store id with
  | none => exact h
  | some a =>
      match body with
      | .error _ => exact h
      | .ok b =>
          dsimp only
          split
          · split
            · exact h
            · rw [storeSet_length_of_get store id a _ hg]
              exact h
          · rw [storeSet_length_of_get store id a _ hg]
            exact h

theorem handleResolve_store_le (store : Store) (id now : String)
    (h : store.length ≤ maxAnnotations) :
    (handleResolve store id now).store.length ≤ maxAnnotations := by
  unfold handleResolve resolveAnnotation
  cases hg : storeGet store id with
  | none => exact h
  | some a =>
      dsimp only
      rw [storeSet_length_of_get store id a _ hg]
      exact h

theorem handleDeleteOne_store_le (store : Store) (id : String)
    (h : store.length ≤ maxAnnotations) :
    (handleDeleteOne store id).store.length ≤ maxAnnotations := by
  unfold handleDeleteOne
  split
  · have := storeErase_length_le store id
    dsimp only
    omega
  · exact h

theorem handleRequest_store_le (ctx : Ctx) (store : Store) (req : Request)
    (freshId now : String) (h : store.length ≤ maxAnnotations) :
    (handleRequest ctx store req freshId now).store.length ≤ maxAnnotations := by
  unfold handleRequest
  repeat' split
  all_goals
    first
      | exact h
      | exact handleCreate_store_le ctx store req.body freshId now h
      | exact handleResolve_store_le store _ now h
      | exact handlePatch_store_le store _ req.body now h
      | exact handleDeleteOne_store_le store _ h
      | simp [clearAnnotations]

theorem handlePatch_text_reject (store : Store) (id : String) (b : ReqBody)
    (now t : String) (a : Annotation) (ha : storeGet store id = some a)
    (htx : b.text = JsVal.str t) (hlen : maxTextLength < t.length) :
    handlePatch store id (Except.ok b) now =
      ⟨400, RespBody.err textErrorMsg, store, false⟩ := by
  unfold handlePatch
  rw [ha]
  dsimp only
  rw [htx]
  dsimp only
  rw [if_pos hlen]

theorem handlePatch_text_ok (store : Store) (id : String) (b : ReqBody)
    (now t : String) (a : Annotation) (ha : storeGet store id = some a)
    (htx : b.text = JsVal.str t) (hlen : t.length ≤ maxTextLength) :
    handlePatch store id (Except.ok b) now =
      ⟨200, RespBody.record { a with text := t, updatedAt := now },
        storeSet store id { a with text := t, updatedAt := now }, true⟩ := by
  unfold handlePatch
  rw [ha]
  dsimp only
  rw [htx]
  dsimp only
  rw [if_neg (by omega)]

theorem string_ne_empty_of_pos (s : String) (h : 0 < s.length) :
    (s != "") = true := by
  rcases eq_or_ne s "" with rfl | hne
  · simp at h
  · simp [hne]

theorem computeScreenshot_throw (x y w h : JsNumVal)
    (hw : (coordOf w).gtZero = true) (hh : (coordOf h).gtZero = true) :
    computeScreenshot (some fun _ _ _ _ => Except.error ()) (some (x, y, w, h)) =
      none := by
  unfold computeScreenshot
  simp [hw, hh]

theorem computeScreenshot_oversize (s : String) (x y w h : JsNumVal)
    (hw : (coordOf w).gtZero = true) (hh : (coordOf h).gtZero = true)
    (hbig : maxScreenshotBytes < s.length) :
    computeScreenshot (some fun _ _ _ _ => Except.ok (some s)) (some (x, y, w, h)) =
      none := by
  unfold computeScreenshot
  simp [hw, hh, string_ne_empty_of_pos s (by omega), hbig]

theorem computeScreenshot_within (t : String) (x y w h : JsNumVal)
    (hw : (coordOf w).gtZero = true) (hh : (coordOf h).gtZero = true)
    (hsmall : t.length ≤ maxScreenshotBytes) :
    computeScreenshot (some fun _ _ _ _ => Except.ok (some t)) (some (x, y, w, h)) =
      some t := by
  unfold computeScreenshot
  simp [hw, hh]
  omega

-- --- Claim theorems ---

/-- C1, counterexample: the persisted-snapshot load applies no capacity check,
so loading a snapshot of 51 records with distinct ids leaves the store holding
51 records, above the stated 50-record bound. -/
theorem load_snapshot_exceeds_capacity :
    maxAnnotations <
      (loadPersistedAnnotations [] (Except.ok snapshot51)).length := by
  decide

/-- C1 (amended): a create request arriving when the store holds 50 (or more)
records is rejected with the 429 capacity error and the store is returned
unchanged (nothing evicted or added), and no HTTP request can raise the record
count above 50; loading a persisted snapshot, however, is uncapped and can
exceed the bound. -/
theorem capacity_invariant_amended :
    (∀ (ctx : Ctx) (store : Store) (body : Except Unit ReqBody) (freshId now : String),
      maxAnnotations ≤ store.length →
      handleCreate ctx store body freshId now =
        ⟨429, RespBody.err capacityErrorMsg, store, false⟩) ∧
    (∀ (ctx : Ctx) (store : Store) (req : Request) (freshId now : String),
      store.length ≤ maxAnnotations →
      (handleRequest ctx store req freshId now).store.length ≤ maxAnnotations) := by
  exact ⟨handleCreate_at_capacity, handleRequest_store_le⟩

/-- C1, witness for the amended theorem at a store of exactly 50 records. -/
theorem capacity_invariant_amended_witness :
    handleCreate ctx0 store50 (Except.ok {}) "f1" "T1" =
      ⟨429, RespBody.err capacityErrorMsg, store50, false⟩ ∧
    (handleRequest ctx0 store50 ⟨Method.GET, "/annotations", Except.ok {}⟩
        "f1" "T1").store.length ≤ maxAnnotations :=
  ⟨capacity_invariant_amended.1 ctx0 store50 (Except.ok {}) "f1" "T1" (by decide),
   capacity_invariant_amended.2 ctx0 store50 ⟨Method.GET, "/annotations", Except.ok {}⟩
     "f1" "T1" (by decide)⟩

/-- C2: the send-notification latch: polling consumes the latch (true exactly
when a send was latched, then reset, so two polls after one send give true then
false), and waiting resolves triggered = true immediately when already latched
(clearing the latch), triggered = true when a send arrives during the wait,
and triggered = false when the timeout elapses with no send. -/
theorem send_latch_semantics (b d : Bool) :
    (consumeSentState b).1 = b ∧
    (consumeSentState b).2 = false ∧
    (consumeSentState (triggerSend b)).1 = true ∧
    (consumeSentState (consumeSentState (triggerSend b)).2).1 = false ∧
    (waitForSend true d).1.triggered = true ∧
    (waitForSend true d).2 = false ∧
    (waitForSend false true).1.triggered = true ∧
    (waitForSend false false).1.triggered = false := by
  cases b <;> cases d <;>
    simp [consumeSentState, triggerSend, waitForSend]

/-- C3: every POST /annotations/send request triggers the send latch and is
answered with status 200 as an acknowledgement, not the 404 branch; the store
is untouched. -/
theorem post_send_route_acks (ctx : Ctx) (store : Store) (latched : Bool)
    (req : Request) (freshId now : String)
    (hm : req.method = Method.POST) (hp : req.path = "/annotations/send") :
    (handleRequestWithSend ctx store latched req freshId now).1.status = 200 ∧
    (handleRequestWithSend ctx store latched req freshId now).1.body = RespBody.ack ∧
    (handleRequestWithSend ctx store latched req freshId now).1.store = store ∧
    (handleRequestWithSend ctx store latched req freshId now).2 = true := by
  simp [handleRequestWithSend, hm, hp, triggerSend]

/-- C3, witness at a concrete request. -/
theorem post_send_route_acks_witness :
    (handleRequestWithSend ctx0 store1 false
        ⟨Method.POST, "/annotations/send", Except.ok {}⟩ "f1" "T1").1.status = 200 ∧
    (handleRequestWithSend ctx0 store1 false
        ⟨Method.POST, "/annotations/send", Except.ok {}⟩ "f1" "T1").1.body = RespBody.ack ∧
    (handleRequestWithSend ctx0 store1 false
        ⟨Method.POST, "/annotations/send", Except.ok {}⟩ "f1" "T1").1.store = store1 ∧
    (handleRequestWithSend ctx0 store1 false
        ⟨Method.POST, "/annotations/send", Except.ok {}⟩ "f1" "T1").2 = true :=
  post_send_route_acks ctx0 store1 false
    ⟨Method.POST, "/annotations/send", Except.ok {}⟩ "f1" "T1" rfl rfl

/-- C4: with a screenshot-producing element rect, a callback result longer
than the 20 MiB ceiling leaves the created annotation with an absent
screenshot (the create still answers 201), a throwing callback is caught and
the annotation is created with no screenshot (no error surfaces to the HTTP
caller), and a result within the ceiling is stored verbatim. -/
theorem screenshot_degrades_gracefully (p : Option Nat) (ov : Option (Nat → String))
    (store : Store) (b : ReqBody) (x y w h : JsNumVal) (s t freshId now : String)
    (h50 : store.length < maxAnnotations)
    (ht : (jsStringOrEmpty b.text).length ≤ maxTextLength)
    (hu : (!b.url.isUndefined && !b.url.isString) = false)
    (hs : (jsStringOrEmpty b.selector).length ≤ maxSelectorLength)
    (he : anyElementSelectorTooLong b.elements = false)
    (hv : viewportOk (viewportWidth b) (viewportHeight b) = true)
    (hr : b.elementRect = some (x, y, w, h))
    (hw : (coordOf w).gtZero = true) (hh : (coordOf h).gtZero = true)
    (hbig : maxScreenshotBytes < s.length)
    (hsmall : t.length ≤ maxScreenshotBytes) :
    ((handleCreate (ctxShot p ov fun _ _ _ _ => Except.ok (some s)) store
        (Except.ok b) freshId now).status = 201 ∧
      ((storeGet (handleCreate (ctxShot p ov fun _ _ _ _ => Except.ok (some s)) store
          (Except.ok b) freshId now).store freshId).map fun a2 => a2.screenshot) =
        some none) ∧
    ((handleCreate (ctxShot p ov fun _ _ _ _ => Except.error ()) store
        (Except.ok b) freshId now).status = 201 ∧
      ((storeGet (handleCreate (ctxShot p ov fun _ _ _ _ => Except.error ()) store
          (Except.ok b) freshId now).store freshId).map fun a2 => a2.screenshot) =
        some none) ∧
    ((handleCreate (ctxShot p ov fun _ _ _ _ => Except.ok (some t)) store
        (Except.ok b) freshId now).status = 201 ∧
      ((storeGet (handleCreate (ctxShot p ov fun _ _ _ _ => Except.ok (some t)) store
          (Except.ok b) freshId now).store freshId).map fun a2 => a2.screenshot) =
        some (some t)) := by
  have hc1 := handleCreate_ok (ctxShot p ov fun _ _ _ _ => Except.ok (some s))
    store b freshId now h50 ht hu hs he hv
  have hc2 := handleCreate_ok (ctxShot p ov fun _ _ _ _ => Except.error ())
    store b freshId now h50 ht hu hs he hv
  have hc3 := handleCreate_ok (ctxShot p ov fun _ _ _ _ => Except.ok (some t))
    store b freshId now h50 ht hu hs he hv
  refine ⟨⟨by rw [hc1], ?_⟩, ⟨by rw [hc2], ?_⟩, ⟨by rw [hc3], ?_⟩⟩
  · rw [hc1]
    dsimp only
    rw [storeGet_storeSet]
    simp only [Option.map_some', Option.some.injEq]
    show computeScreenshot (some fun _ _ _ _ => Except.ok (some s)) b.elementRect = none
    rw [hr]
    exact computeScreenshot_oversize s x y w h hw hh hbig
  · rw [hc2]
    dsimp only
    rw [storeGet_storeSet]
    simp only [Option.map_some', Option.some.injEq]
    show computeScreenshot (some fun _ _ _ _ => Except.error ()) b.elementRect = none
    rw [hr]
    exact computeScreenshot_throw x y w h hw hh
  · rw [hc3]
    dsimp only
    rw [storeGet_storeSet]
    simp only [Option.map_some', Option.some.injEq]
    show computeScreenshot (some fun _ _ _ _ => Except.ok (some t)) b.elementRect = some t
    rw [hr]
    exact computeScreenshot_within t x y w h hw hh hsmall

/-- C4, witness: a 20 MiB + 1 oversized result, a throwing callback, and a
small result, on an otherwise minimal create request. -/
theorem screenshot_degrades_gracefully_witness :
    ((handleCreate (ctxShot none none fun _ _ _ _ => Except.ok (some (chars 20971521)))
        [] (Except.ok rectBody) "f1" "T1").status = 201 ∧
      ((storeGet (handleCreate (ctxShot none none fun _ _ _ _ => Except.ok (some (chars 20971521)))
          [] (Except.ok rectBody) "f1" "T1").store "f1").map fun a2 => a2.screenshot) =
        some none) ∧
    ((handleCreate (ctxShot none none fun _ _ _ _ => Except.error ())
        [] (Except.ok rectBody) "f1" "T1").status = 201 ∧
      ((storeGet (handleCreate (ctxShot none none fun _ _ _ _ => Except.error ())
          [] (Except.ok rectBody) "f1" "T1").store "f1").map fun a2 => a2.screenshot) =
        some none) ∧
    ((handleCreate (ctxShot none none fun _ _ _ _ => Except.ok (some "shot"))
        [] (Except.ok rectBody) "f1" "T1").status = 201 ∧
      ((storeGet (handleCreate (ctxShot none none fun _ _ _ _ => Except.ok (some "shot"))
          [] (Except.ok rectBody) "f1" "T1").store "f1").map fun a2 => a2.screenshot) =
        some (some "shot")) :=
  screenshot_degrades_gracefully none none [] rectBody
    (JsNumVal.val (JsNum.fin 0)) (JsNumVal.val (JsNum.fin 0))
    (JsNumVal.val (JsNum.fin 5)) (JsNumVal.val (JsNum.fin 5))
    (chars 20971521) "shot" "f1" "T1"
    (by decide) (by decide) (by decide) (by decide) (by decide) (by decide)
    rfl (by decide) (by decide)
    (by rw [chars_length]; decide) (by decide)

/-- C5: a string text field longer than 10240 characters is rejected with 400
and the message identifying "Text", on create and on patch, leaving the store
unchanged; a text of length exactly 10240 is accepted by both (create answers
201 and patch answers 200 storing the new text). -/
theorem text_length_validation (ctx : Ctx) (store : Store) (b : ReqBody)
    (t1 t2 id freshId now : String) (a : Annotation)
    (h50 : store.length < maxAnnotations)
    (h1 : 10241 ≤ t1.length) (h2 : t2.length = 10240)
    (ha : storeGet store id = some a)
    (hu : (!b.url.isUndefined && !b.url.isString) = false)
    (hs : (jsStringOrEmpty b.selector).length ≤ maxSelectorLength)
    (he : anyElementSelectorTooLong b.elements = false)
    (hv : viewportOk (viewportWidth b) (viewportHeight b) = true) :
    handleCreate ctx store (Except.ok { b with text := JsVal.str t1 }) freshId now =
      ⟨400, RespBody.err textErrorMsg, store, false⟩ ∧
    handlePatch store id (Except.ok { b with text := JsVal.str t1 }) now =
      ⟨400, RespBody.err textErrorMsg, store, false⟩ ∧
    (handleCreate ctx store (Except.ok { b with text := JsVal.str t2 }) freshId now).status = 201 ∧
    ((storeGet (handleCreate ctx store (Except.ok { b with text := JsVal.str t2 })
        freshId now).store freshId).map fun a2 => a2.text) = some t2 ∧
    (handlePatch store id (Except.ok { b with text := JsVal.str t2 }) now).status = 200 ∧
    ((storeGet (handlePatch store id (Except.ok { b with text := JsVal.str t2 })
        now).store id).map fun a2 => a2.text) = some t2 := by
  have hlong : maxTextLength < t1.length := by
    simp only [maxTextLength]
    omega
  have hshort : t2.length ≤ maxTextLength := by
    simp only [maxTextLength]
    omega
  have hcreate2 := handleCreate_ok ctx store { b with text := JsVal.str t2 }
    freshId now h50 hshort hu hs he hv
  have hpatch2 := handlePatch_text_ok store id { b with text := JsVal.str t2 }
    now t2 a ha rfl hshort
  refine ⟨?_, ?_, ?_, ?_, ?_, ?_⟩
  · exact handleCreate_text_reject ctx store _ freshId now h50 hlong
  · exact handlePatch_text_reject store id _ now t1 a ha rfl hlong
  · rw [hcreate2]
  · rw [hcreate2]
    dsimp only
    rw [storeGet_storeSet]
    rfl
  · rw [hpatch2]
  · rw [hpatch2]
    dsimp only
    rw [storeGet_storeSet]
    rfl

/-- C5, witness: texts of length 10241 and 10240 against a one-record store. -/
theorem text_length_validation_witness :
    handleCreate ctx0 store1 (Except.ok { text := JsVal.str (chars 10241) }) "f1" "T1" =
      ⟨400, RespBody.err textErrorMsg, store1, false⟩ ∧
    handlePatch store1 "a1" (Except.ok { text := JsVal.str (chars 10241) }) "T1" =
      ⟨400, RespBody.err textErrorMsg, store1, false⟩ ∧
    (handleCreate ctx0 store1 (Except.ok { text := JsVal.str (chars 10240) }) "f1" "T1").status = 201 ∧
    ((storeGet (handleCreate ctx0 store1 (Except.ok { text := JsVal.str (chars 10240) })
        "f1" "T1").store "f1").map fun a2 => a2.text) = some (chars 10240) ∧
    (handlePatch store1 "a1" (Except.ok { text := JsVal.str (chars 10240) }) "T1").status = 200 ∧
    ((storeGet (handlePatch store1 "a1" (Except.ok { text := JsVal.str (chars 10240) })
        "T1").store "a1").map fun a2 => a2.text) = some (chars 10240) :=
  text_length_validation ctx0 store1 {} (chars 10241) (chars 10240) "a1" "f1" "T1"
    (plainAnn "a1") (by decide) (by rw [chars_length]) (chars_length 10240)
    (by decide) (by decide) (by decide) (by decide) (by decide)

/-- C6: a selector longer than 2048 characters, on the top level or on any
sub-element of a multi-element payload, is rejected with 400 before anything
reaches the store (the store is returned unchanged); selectors of exactly 2048
characters everywhere are accepted. -/
theorem selector_length_validation (ctx : Ctx) (store : Store) (b : ReqBody)
    (s1 s2 freshId now : String) (els els2 : List ElemVal) (el : ElemVal)
    (h50 : store.length < maxAnnotations)
    (ht : (jsStringOrEmpty b.text).length ≤ maxTextLength)
    (hu : (!b.url.isUndefined && !b.url.isString) = false)
    (hv : viewportOk (viewportWidth b) (viewportHeight b) = true)
    (h1 : 2049 ≤ s1.length) (h2 : s2.length = 2048)
    (hel : el ∈ els) (hels : el.selector = JsVal.str s1)
    (hok : ∀ e ∈ els2, (jsStringOrEmpty e.selector).length ≤ maxSelectorLength) :
    handleCreate ctx store
        (Except.ok { b with selector := JsVal.str s1, elements := none }) freshId now =
      ⟨400, RespBody.err selectorErrorMsg, store, false⟩ ∧
    handleCreate ctx store
        (Except.ok { b with selector := JsVal.str s2, elements := some els }) freshId now =
      ⟨400, RespBody.err elementSelectorErrorMsg, store, false⟩ ∧
    (handleCreate ctx store
        (Except.ok { b with selector := JsVal.str s2, elements := some els2 })
        freshId now).status = 201 := by
  have hlong : maxSelectorLength < (jsStringOrEmpty (JsVal.str s1)).length := by
    simp only [maxSelectorLength, jsStringOrEmpty]
    omega
  have hshort : (jsStringOrEmpty (JsVal.str s2)).length ≤ maxSelectorLength := by
    simp only [maxSelectorLength, jsStringOrEmpty]
    omega
  have hany : anyElementSelectorTooLong (some els) = true := by
    simp only [anyElementSelectorTooLong, List.any_eq_true]
    refine ⟨el, hel, ?_⟩
    rw [hels]
    exact decide_eq_true hlong
  have hnone : anyElementSelectorTooLong (some els2) = false := by
    simp only [anyElementSelectorTooLong, List.any_eq_false]
    intro e hm
    simp only [decide_eq_true_eq, not_lt]
    exact hok e hm
  refine ⟨?_, ?_, ?_⟩
  · exact handleCreate_selector_reject ctx store
      { b with selector := JsVal.str s1, elements := none } freshId now h50 ht hu hlong
  · exact handleCreate_element_selector_reject ctx store
      { b with selector := JsVal.str s2, elements := some els } freshId now h50 ht hu hshort hany
  · rw [handleCreate_ok ctx store
      { b with selector := JsVal.str s2, elements := some els2 } freshId now h50 ht hu hshort hnone hv]

/-- C6, witness: selectors of length 2049 and 2048 on the top level and on a
single sub-element. -/
theorem selector_length_validation_witness :
    handleCreate ctx0 []
        (Except.ok { selector := JsVal.str (chars 2049), elements := none }) "f1" "T1" =
      ⟨400, RespBody.err selectorErrorMsg, [], false⟩ ∧
    handleCreate ctx0 []
        (Except.ok { selector := JsVal.str (chars 2048), elements := some [⟨JsVal.str (chars 2049), JsVal.undef, none, none⟩] }) "f1" "T1" =
      ⟨400, RespBody.err elementSelectorErrorMsg, [], false⟩ ∧
    (handleCreate ctx0 []
        (Except.ok { selector := JsVal.str (chars 2048), elements := some [⟨JsVal.str (chars 2048), JsVal.undef, none, none⟩] })
        "f1" "T1").status = 201 :=
  selector_length_validation ctx0 [] {} (chars 2049) (chars 2048) "f1" "T1"
    [⟨JsVal.str (chars 2049), JsVal.undef, none, none⟩]
    [⟨JsVal.str (chars 2048), JsVal.undef, none, none⟩]
    ⟨JsVal.str (chars 2049), JsVal.undef, none, none⟩
    (by decide) (by decide) (by decide) (by decide)
    (by rw [chars_length]) (chars_length 2048)
    (List.mem_singleton.mpr rfl) rfl
    (by intro e hm
        rw [List.mem_singleton.mp hm]
        simp [jsStringOrEmpty, chars_length, maxSelectorLength])

/-- C9, counterexample: a PATCH on an unknown id with an unparseable body is
answered 404 (the not-found check precedes reading the body), not the claimed
500. -/
theorem patch_unknown_unparseable_404 :
    handleRequest ctx0 [] ⟨Method.PATCH, "/annotations/zzz", Except.error ()⟩ "f1" "T1" =
      ⟨404, RespBody.err "Annotation not found", [], false⟩ := by
  rfl

/-- C9 (amended): a POST /annotations with an unparseable body is answered 500
{error: "Internal server error"} with the store unchanged when the store is
below capacity (at capacity the 429 capacity error is produced before the body
is read), and a PATCH /annotations/:id with an unparseable body is answered
500 with the store unchanged when the id exists (on an unknown id the 404 is
produced before the body is read). -/
theorem unparseable_body_500 :
    (∀ (ctx : Ctx) (store : Store) (freshId now : String),
      store.length < maxAnnotations →
      handleRequest ctx store ⟨Method.POST, "/annotations", Except.error ()⟩ freshId now =
        ⟨500, RespBody.err "Internal server error", store, false⟩) ∧
    (∀ (ctx : Ctx) (store : Store) (freshId now : String),
      maxAnnotations ≤ store.length →
      handleRequest ctx store ⟨Method.POST, "/annotations", Except.error ()⟩ freshId now =
        ⟨429, RespBody.err capacityErrorMsg, store, false⟩) ∧
    (∀ (ctx : Ctx) (store : Store) (p id freshId now : String) (a : Annotation),
      pathIdMatch p = some (id, false) → storeGet store id = some a →
      handleRequest ctx store ⟨Method.PATCH, p, Except.error ()⟩ freshId now =
        ⟨500, RespBody.err "Internal server error", store, false⟩) ∧
    (∀ (ctx : Ctx) (store : Store) (p id freshId now : String),
      pathIdMatch p = some (id, false) → storeGet store id = none →
      handleRequest ctx store ⟨Method.PATCH, p, Except.error ()⟩ freshId now =
        ⟨404, RespBody.err "Annotation not found", store, false⟩) := by
  refine ⟨?_, ?_, ?_, ?_⟩
  · intro ctx store freshId now h
    have hr : handleRequest ctx store ⟨Method.POST, "/annotations", Except.error ()⟩ freshId now =
        handleCreate ctx store (Except.error ()) freshId now := by
      simp [handleRequest]
    rw [hr]
    unfold handleCreate
    rw [if_neg (by omega)]
  · intro ctx store freshId now h
    have hr : handleRequest ctx store ⟨Method.POST, "/annotations", Except.error ()⟩ freshId now =
        handleCreate ctx store (Except.error ()) freshId now := by
      simp [handleRequest]
    rw [hr]
    exact handleCreate_at_capacity ctx store _ freshId now h
  · intro ctx store p id freshId now a hp hg
    have hr : handleRequest ctx store ⟨Method.PATCH, p, Except.error ()⟩ freshId now =
        handlePatch store id (Except.error ()) now := by
      simp [handleRequest, hp]
    rw [hr]
    unfold handlePatch
    rw [hg]
  · intro ctx store p id freshId now hp hg
    have hr : handleRequest ctx store ⟨Method.PATCH, p, Except.error ()⟩ freshId now =
        handlePatch store id (Except.error ()) now := by
      simp [handleRequest, hp]
    rw [hr]
    unfold handlePatch
    rw [hg]

/-- C9, witness for the amended theorem at concrete stores and paths. -/
theorem unparseable_body_500_witness :
    handleRequest ctx0 [] ⟨Method.POST, "/annotations", Except.error ()⟩ "f1" "T1" =
      ⟨500, RespBody.err "Internal server error", [], false⟩ ∧
    handleRequest ctx0 store50 ⟨Method.POST, "/annotations", Except.error ()⟩ "f1" "T1" =
      ⟨429, RespBody.err capacityErrorMsg, store50, false⟩ ∧
    handleRequest ctx0 store1 ⟨Method.PATCH, "/annotations/a1", Except.error ()⟩ "f1" "T1" =
      ⟨500, RespBody.err "Internal server error", store1, false⟩ ∧
    handleRequest ctx0 store1 ⟨Method.PATCH, "/annotations/zz", Except.error ()⟩ "f1" "T1" =
      ⟨404, RespBody.err "Annotation not found", store1, false⟩ :=
  ⟨unparseable_body_500.1 ctx0 [] "f1" "T1" (by decide),
   unparseable_body_500.2.1 ctx0 store50 "f1" "T1" (by decide),
   unparseable_body_500.2.2.1 ctx0 store1 "/annotations/a1" "a1" "f1" "T1"
     (plainAnn "a1") (by decide) (by decide),
   unparseable_body_500.2.2.2 ctx0 store1 "/annotations/zz" "zz" "f1" "T1"
     (by decide) (by decide)⟩

/-- C7, counterexample: clearAnnotations on an empty store succeeds, returning
a removed count of 0, but does not invoke the persistence scheduling signal. -/
theorem clear_empty_no_persist_signal :
    (clearAnnotations []).1 = 0 ∧ (clearAnnotations []).2.2 = false :=
  ⟨rfl, rfl⟩

/-- C7 (amended): every successful create, update-text, resolve and delete
invokes the persistence scheduling signal, and clear invokes it exactly when
it removed at least one record — clear on an empty store succeeds (count 0)
without invoking it. -/
theorem mutations_schedule_persist :
    (∀ (ctx : Ctx) (store : Store) (body : Except Unit ReqBody) (freshId now : String),
      (handleCreate ctx store body freshId now).status = 201 →
      (handleCreate ctx store body freshId now).persistScheduled = true) ∧
    (∀ (store : Store) (id : String) (body : Except Unit ReqBody) (now : String),
      (handlePatch store id body now).status = 200 →
      (handlePatch store id body now).persistScheduled = true) ∧
    (∀ (store : Store) (id now : String) (a : Annotation),
      ( resolveAnnotation store id now).1 = some a →
      ( resolveAnnotation store id now).2.2 = true) ∧
    (∀ (store : Store) (id : String),
      ( deleteAnnotation store id).1 = true →
      ( deleteAnnotation store id).2.2 = true) ∧
    (∀ store : Store, 0 < store.length → (clearAnnotations store).2.2 = true) ∧
    (∀ store : Store, store.length = 0 → (clearAnnotations store).2.2 = false) := by
  refine ⟨?_, ?_, ?_, ?_, ?_, ?_⟩
  · intro ctx store body freshId now
    unfold handleCreate
    split
    · intro hc
      simp at hc
    · match body with
      | .error _ =>
          intro hc
          simp at hc
      | .ok b =>
          dsimp only
          split
          · intro hc
            simp at hc
          · split
            · intro hc
              simp at hc
            · split
              · intro hc
                simp at hc
              · split
                · intro hc
                  simp at hc
                · split
                  · intro hc
                    simp at hc
                  · intro _
                    rfl
  · intro store id body now
    unfold handlePatch
    cases hg : storeGet store id with
    | none =>
        intro hc
        simp at hc
    | some a =>
        match body with
        | .error _ =>
            intro hc
            simp at hc
        | .ok b =>
            dsimp only
            split
            · split
              · intro hc
                simp at hc
              · intro _
                rfl
            · intro _
              rfl
  · intro store id now a
    unfold resolveAnnotation
    cases hg : storeGet store id with
    | none =>
        intro hc
        simp at hc
    | some a0 =>
        intro _
        rfl
  · intro store id
    unfold deleteAnnotation
    split
    · intro _
      rfl
    · intro hc
      simp at hc
  · intro store h
    exact decide_eq_true h
  · intro store h
    simp [clearAnnotations, h]

/-- C7, witness for the amended theorem at concrete stores. -/
theorem mutations_schedule_persist_witness :
    (handleCreate ctx0 [] (Except.ok {}) "f1" "T1").persistScheduled = true ∧
    (handlePatch store1 "a1" (Except.ok {}) "T1").persistScheduled = true ∧
    ( resolveAnnotation store1 "a1" "T1").2.2 = true ∧
    ( deleteAnnotation store1 "a1").2.2 = true ∧
    (clearAnnotations store1).2.2 = true ∧
    (clearAnnotations []).2.2 = false :=
  ⟨mutations_schedule_persist.1 ctx0 [] (Except.ok {}) "f1" "T1" (by decide),
   mutations_schedule_persist.2.1 store1 "a1" (Except.ok {}) "T1" (by decide),
   mutations_schedule_persist.2.2.1 store1 "a1" "T1"
     { plainAnn "a1" with status := AnnStatus.resolved, updatedAt := "T1" } (by decide),
   mutations_schedule_persist.2.2.2.1 store1 "a1" (by decide),
   mutations_schedule_persist.2.2.2.2.1 store1 (by decide),
   mutations_schedule_persist.2.2.2.2.2 [] rfl⟩

/-- C8: the port-file read returns the recorded {port, pid, startedAt} when
the file exists and parses (in particular right after a write), and returns an
absent result when the file is missing or unparseable; being a total function
of the file state, it never throws. -/
theorem read_port_file_total (st : PortFileState) :
    (∀ d, st = PortFileState.valid d → readPortFile st = some d) ∧
    ((st = PortFileState.absent ∨ ∃ raw, st = PortFileState.corrupt raw) →
      readPortFile st = none) ∧
    (∀ (port pid : Nat) (startedAt : String),
      readPortFile (writePortFile port pid startedAt) =
        some ⟨port, pid, startedAt⟩) := by
  refine ⟨?_, ?_, ?_⟩
  · rintro d rfl
    rfl
  · rintro (rfl | ⟨raw, rfl⟩) <;> rfl
  · intro port pid startedAt
    rfl

/-- C8, witness at a concrete port file. -/
theorem read_port_file_total_witness :
    readPortFile (PortFileState.valid ⟨9223, 7, "2024-01-01T00:00:00.000Z"⟩) =
      some ⟨9223, 7, "2024-01-01T00:00:00.000Z"⟩ ∧
    readPortFile PortFileState.absent = none :=
  ⟨(read_port_file_total _).1 _ rfl,
   (read_port_file_total PortFileState.absent).2.1 (Or.inl rfl)⟩

/-- C10: a PATCH on an existing id whose parsed body carries no string text
field succeeds with 200 and the full record; only updatedAt changes (text and
every other content field of the stored record are those of the prior record),
and the persistence scheduling signal is invoked. -/
theorem patch_without_text (store : Store) (id now : String) (a : Annotation)
    (b : ReqBody) (ha : storeGet store id = some a)
    (hb : b.text.isString = false) :
    handlePatch store id (Except.ok b) now =
      ⟨200, RespBody.record { a with updatedAt := now },
        storeSet store id { a with updatedAt := now }, true⟩ ∧
    storeGet (handlePatch store id (Except.ok b) now).store id =
      some { a with updatedAt := now } := by
  have h1 : handlePatch store id (Except.ok b) now =
      ⟨200, RespBody.record { a with updatedAt := now },
        storeSet store id { a with updatedAt := now }, true⟩ := by
    unfold handlePatch
    rw [ha]
    dsimp only
    split
    · rename_i s hs
      rw [hs] at hb
      simp [JsVal.isString] at hb
    · rfl
  refine ⟨h1, ?_⟩
  rw [h1]
  exact storeGet_storeSet store id { a with updatedAt := now }

/-- C10, witness: a PATCH with an empty JSON object body on a one-record
store. -/
theorem patch_without_text_witness :
    handlePatch store1 "a1" (Except.ok {}) "T2" =
      ⟨200, RespBody.record { plainAnn "a1" with updatedAt := "T2" },
        storeSet store1 "a1" { plainAnn "a1" with updatedAt := "T2" }, true⟩ ∧
    storeGet (handlePatch store1 "a1" (Except.ok {}) "T2").store "a1" =
      some { plainAnn "a1" with updatedAt := "T2" } :=
  patch_without_text store1 "a1" "T2" (plainAnn "a1") {} (by decide) (by decide)

end Annoku
